import Mathlib

/-!
Shallow embedding of `src/CustomBottomSheet.tsx` from
react-native-custom-bottomsheet: a draggable animated bottom sheet.

Heights are modelled as rationals.  The component keeps two shared values
(`animatedHeight`, `isDragging`) and a gesture context (`startHeight`); an
in-flight `withSpring` / `withTiming` command is modelled as an optional
pending animation carrying its target and whether its completion callback
invokes `onClose` (code attaches the callback only in the drag-end close
branch and in `handleBackdropPress`, guarded by `finished`).

Events are the entry points of the component: the `useEffect` on `visible`,
the gesture handler's `onStart` / `onActive` / `onEnd`, the backdrop press,
and the settling (completion or cancellation) of a pending animation.
-/

namespace CustomBottomSheet

/-- Configuration subset of `CustomBottomSheetProps` relevant to the
height/gesture logic (lines 20-38 and defaults at lines 77-95). -/
structure Config where
  height : ℚ
  disableClose : Bool
  isModal : Bool
  minHeight : ℚ
  maxHeight : ℚ
  hasOnHeightChange : Bool
  deriving Repr, DecidableEq

/-- Kind of reanimated command driving the height value. -/
inductive AnimKind where
  | spring
  | timing
  deriving Repr, DecidableEq

/-- An in-flight animation on `animatedHeight`: its kind, its target value,
and whether its completion callback fires `onClose` when `finished`. -/
structure Anim where
  kind : AnimKind
  target : ℚ
  fireClose : Bool
  deriving Repr, DecidableEq

/-- Mutable state of a mounted component instance: the two shared values,
the gesture context `ctx.startHeight`, and the pending animation. -/
structure SheetState where
  animatedHeight : ℚ
  isDragging : Bool
  startHeight : ℚ
  anim : Option Anim
  deriving Repr, DecidableEq

/-- State at mount: `useSharedValue(0)` and `useSharedValue(false)`
(lines 96-97). -/
def initState : SheetState :=
  { animatedHeight := 0, isDragging := false, startHeight := 0, anim := none }

/-- External events that drive the component. -/
inductive Event where
  | setVisible (b : Bool)
  | dragStart
  | dragMove (translationY : ℚ)
  | dragEnd
  | backdropPress
  | settle (finished : Bool)
  deriving Repr, DecidableEq

/-- The `useEffect` on `visible` (lines 100-112): visible starts a spring to
`height`; not visible starts an eased timing to 0.  Neither command carries a
completion callback. -/
def visibleEffect (cfg : Config) (s : SheetState) (visible : Bool) : SheetState :=
  if visible then
    { s with anim := some ⟨AnimKind.spring, cfg.height, false⟩ }
  else
    { s with anim := some ⟨AnimKind.timing, 0, false⟩ }

/-- `gestureHandler.onStart` (lines 125-128): record the start height in the
gesture context and raise the drag flag. -/
def onStart (s : SheetState) : SheetState :=
  { s with startHeight := s.animatedHeight, isDragging := true }

/-- Clamp as written at line 133: `Math.max(minHeight, Math.min(maxHeight, newHeight))`. -/
def clampHeight (cfg : Config) (x : ℚ) : ℚ :=
  max cfg.minHeight (min cfg.maxHeight x)

/-- `gestureHandler.onActive` (lines 129-136): return untouched when
`disableClose`; otherwise write the clamped `startHeight - translationY`
directly, which cancels any in-flight animation. -/
def onActive (cfg : Config) (s : SheetState) (translationY : ℚ) : SheetState :=
  if cfg.disableClose then s
  else
    { s with
      animatedHeight := clampHeight cfg (s.startHeight - translationY)
      anim := none }

/-- The animation command chosen by `gestureHandler.onEnd` (lines 139-175)
as a function of the current height. -/
def onEndAnim (cfg : Config) (h : ℚ) : Anim :=
  if cfg.disableClose then ⟨AnimKind.spring, cfg.height, false⟩
  else if h ≥ cfg.maxHeight then ⟨AnimKind.spring, cfg.maxHeight, false⟩
  else if h ≤ cfg.minHeight then ⟨AnimKind.spring, cfg.minHeight, false⟩
  else if h < cfg.height - 80 then ⟨AnimKind.timing, 0, true⟩
  else ⟨AnimKind.spring, cfg.height, false⟩

/-- `gestureHandler.onEnd` (lines 137-176): lower the drag flag, then start
the snap-policy animation. -/
def onEnd (cfg : Config) (s : SheetState) : SheetState :=
  { s with
    isDragging := false
    anim := some (onEndAnim cfg s.animatedHeight) }

/-- `handleBackdropPress` (lines 190-205): when closing is enabled, start an
eased timing to 0 whose completion callback fires `onClose` if `finished`. -/
def handleBackdropPress (cfg : Config) (s : SheetState) : SheetState :=
  if cfg.disableClose then s
  else { s with anim := some ⟨AnimKind.timing, 0, true⟩ }

/-- One event step.  Returns the new state and whether `onClose` was invoked
during the step.  A settle with `finished = true` writes the pending target
into the height and runs the completion callback; `finished = false`
(interruption) drops the pending animation without firing the callback,
because both callbacks in the source are guarded by `if (finished)`. -/
def applyEvent (cfg : Config) (s : SheetState) : Event → SheetState × Bool
  | Event.setVisible b => (visibleEffect cfg s b, false)
  | Event.dragStart => (onStart s, false)
  | Event.dragMove t => (onActive cfg s t, false)
  | Event.dragEnd => (onEnd cfg s, false)
  | Event.backdropPress => (handleBackdropPress cfg s, false)
  | Event.settle finished =>
      match s.anim with
      | none => (s, false)
      | some a =>
          if finished then
            ({ s with animatedHeight := a.target, anim := none }, a.fireClose)
          else
            ({ s with anim := none }, false)

/-- Run a list of events from a given state, accumulating the number of
`onClose` invocations. -/
def runFrom (cfg : Config) (s : SheetState) (closes : Nat) :
    List Event → SheetState × Nat
  | [] => (s, closes)
  | e :: es =>
      let p := applyEvent cfg s e
      runFrom cfg p.1 (if p.2 then closes + 1 else closes) es

/-- Run a list of events from the mount state. -/
def run (cfg : Config) (es : List Event) : SheetState × Nat :=
  runFrom cfg initState 0 es

/-- The `useDerivedValue` watcher (lines 115-119): whenever the height value
changes, if an `onHeightChange` observer is configured it is called with the
current height.  `stepWithNotify` pairs an event step with the notification
the watcher emits for it (none when the height did not change or no observer
is configured). -/
def stepWithNotify (cfg : Config) (s : SheetState) (e : Event) :
    SheetState × Bool × Option ℚ :=
  let p := applyEvent cfg s e
  (p.1, p.2,
    if cfg.hasOnHeightChange ∧ p.1.animatedHeight ≠ s.animatedHeight then
      some p.1.animatedHeight
    else none)

/-! Theorems. -/

/-- C1: on drag end the chosen action follows the snap policy in priority
order: disableClose → spring back to the open height; else height ≥ maxHeight
→ snap to maxHeight; else height ≤ minHeight → snap to minHeight; else
height < height − 80 → timing to 0 with the close callback attached;
otherwise spring back to the open height.  The drag flag is lowered in every
case. -/
theorem dragEnd_snap_policy (cfg : Config) (s : SheetState) :
    (cfg.disableClose = true →
      onEnd cfg s = { s with isDragging := false, anim := some ⟨AnimKind.spring, cfg.height, false⟩ }) ∧
    (cfg.disableClose = false → cfg.maxHeight ≤ s.animatedHeight →
      onEnd cfg s = { s with isDragging := false, anim := some ⟨AnimKind.spring, cfg.maxHeight, false⟩ }) ∧
    (cfg.disableClose = false → s.animatedHeight < cfg.maxHeight →
      s.animatedHeight ≤ cfg.minHeight →
      onEnd cfg s = { s with isDragging := false, anim := some ⟨AnimKind.spring, cfg.minHeight, false⟩ }) ∧
    (cfg.disableClose = false → s.animatedHeight < cfg.maxHeight →
      cfg.minHeight < s.animatedHeight → s.animatedHeight < cfg.height - 80 →
      onEnd cfg s = { s with isDragging := false, anim := some ⟨AnimKind.timing, 0, true⟩ }) ∧
    (cfg.disableClose = false → s.animatedHeight < cfg.maxHeight →
      cfg.minHeight < s.animatedHeight → cfg.height - 80 ≤ s.animatedHeight →
      onEnd cfg s = { s with isDragging := false, anim := some ⟨AnimKind.spring, cfg.height, false⟩ }) := by
  refine ⟨?_, ?_, ?_, ?_, ?_⟩
  · intro hd
    simp [onEnd, onEndAnim, hd]
  · intro hd hmax
    simp [onEnd, onEndAnim, hd, ge_iff_le, hmax]
  · intro hd hmax hmin
    simp [onEnd, onEndAnim, hd, ge_iff_le, not_le.mpr hmax, hmin]
  · intro hd hmax hmin hth
    simp [onEnd, onEndAnim, hd, ge_iff_le, not_le.mpr hmax, not_le.mpr hmin, hth]
  · intro hd hmax hmin hth
    simp [onEnd, onEndAnim, hd, ge_iff_le, not_le.mpr hmax, not_le.mpr hmin,
      not_lt.mpr hth]

/-- Witness for C1: with height 200, bounds [0, 300], closing enabled, a drag
ending at 50 (< 120 = 200 − 80) starts the close animation. -/
theorem dragEnd_snap_policy_witness :
    onEnd ⟨200, false, true, 0, 300, false⟩
        ⟨50, true, 200, none⟩ =
      { animatedHeight := 50, isDragging := false, startHeight := 200,
        anim := some ⟨AnimKind.timing, 0, true⟩ } :=
  (dragEnd_snap_policy ⟨200, false, true, 0, 300, false⟩
    ⟨50, true, 200, none⟩).2.2.2.1 rfl (by norm_num) (by norm_num) (by norm_num)

/-- C2: a drag move with closing enabled writes the height recorded at
gesture start minus the vertical translation, clamped into
[minHeight, maxHeight]; the gesture-start handler records the current height;
hence every height produced by a move event lies within
[minHeight, maxHeight] whenever minHeight ≤ maxHeight. -/
theorem dragMove_clamped (cfg : Config) (s : SheetState) (t : ℚ)
    (hmm : cfg.minHeight ≤ cfg.maxHeight) (hd : cfg.disableClose = false) :
    (onActive cfg s t).animatedHeight = clampHeight cfg (s.startHeight - t) ∧
    (onStart s).startHeight = s.animatedHeight ∧
    cfg.minHeight ≤ (onActive cfg s t).animatedHeight ∧
    (onActive cfg s t).animatedHeight ≤ cfg.maxHeight := by
  refine ⟨by simp [onActive, hd], rfl, ?_, ?_⟩
  · simp [onActive, hd, clampHeight]
  · simp only [onActive, hd, Bool.false_eq_true, if_false, clampHeight]
    exact max_le hmm (min_le_left _ _)

/-- Witness for C2: with bounds [0, 300], a drag started at 200 and moved by
translation 250 produces height 0, which is clamp(200 − 250) and within
bounds. -/
theorem dragMove_clamped_witness :
    (onActive ⟨200, false, true, 0, 300, false⟩ ⟨200, true, 200, none⟩
        250).animatedHeight =
      clampHeight ⟨200, false, true, 0, 300, false⟩ (200 - 250) ∧
    (onStart ⟨200, true, 200, none⟩).startHeight = 200 ∧
    (0 : ℚ) ≤ (onActive ⟨200, false, true, 0, 300, false⟩ ⟨200, true, 200, none⟩
        250).animatedHeight ∧
    (onActive ⟨200, false, true, 0, 300, false⟩ ⟨200, true, 200, none⟩
        250).animatedHeight ≤ 300 :=
  dragMove_clamped ⟨200, false, true, 0, 300, false⟩ ⟨200, true, 200, none⟩ 250
    (by norm_num) rfl

/-- Helper invariant for C3: no pending animation carries a close callback. -/
def noCloseAnim (s : SheetState) : Prop :=
  ∀ a, s.anim = some a → a.fireClose = false

/-- With disableClose set, every event step preserves `noCloseAnim` and does
not invoke the close callback. -/
theorem applyEvent_noClose (cfg : Config) (hd : cfg.disableClose = true)
    (s : SheetState) (hs : noCloseAnim s) (e : Event) :
    noCloseAnim (applyEvent cfg s e).1 ∧ (applyEvent cfg s e).2 = false := by
  cases e with
  | setVisible b =>
      cases b <;>
        simp [applyEvent, visibleEffect, noCloseAnim]
  | dragStart =>
      refine ⟨fun a ha => hs a ha, rfl⟩
  | dragMove t =>
      simp only [applyEvent, onActive, hd, if_true]
      exact ⟨hs, trivial⟩

  | dragEnd =>
      simp [applyEvent, onEnd, onEndAnim, hd, noCloseAnim]
  | backdropPress =>
      simp only [applyEvent, handleBackdropPress, hd, if_true]
      exact ⟨hs, trivial⟩
  | settle finished =>
      cases ha : s.anim with
      | none =>
          simp [applyEvent, ha]
          exact hs
      | some a =>
          cases finished with
          | false =>
              simp [applyEvent, ha, noCloseAnim]
          | true =>
              simp [applyEvent, ha, noCloseAnim]
              exact hs a ha

/-- Helper for C3: running any events from a `noCloseAnim` state with
disableClose set leaves the close count unchanged. -/
theorem runFrom_noClose (cfg : Config) (hd : cfg.disableClose = true)
    (es : List Event) :
    ∀ s : SheetState, noCloseAnim s → ∀ n : Nat,
      (runFrom cfg s n es).2 = n := by
  induction es with
  | nil => intro s _ n; rfl
  | cons e es ih =>
      intro s hs n
      have h := applyEvent_noClose cfg hd s hs e
      simp only [runFrom, h.2, if_false]
      exact ih (applyEvent cfg s e).1 h.1 n

/-- C3: with disableClose set, no sequence of drag events, visibility
changes, backdrop presses and animation completions ever invokes the close
callback. -/
theorem disableClose_never_closes (cfg : Config)
    (hd : cfg.disableClose = true) (es : List Event) :
    (run cfg es).2 = 0 := by
  exact runFrom_noClose cfg hd es initState (fun a ha => by cases ha) 0

/-- Witness for C3: a full open, drag, release, backdrop-press, settle
sequence under disableClose fires zero close callbacks. -/
theorem disableClose_never_closes_witness :
    (run ⟨200, true, true, 0, 300, false⟩
      [Event.setVisible true, Event.settle true, Event.dragStart,
       Event.dragMove 250, Event.dragEnd, Event.settle true,
       Event.backdropPress, Event.settle true]).2 = 0 :=
  disableClose_never_closes ⟨200, true, true, 0, 300, false⟩ rfl _

/-- C4 counterexample: with height 200, bounds [0, 300] and closing enabled,
opening the sheet and dragging it all the way down ends the drag at height 0,
which is strictly below height − 80 = 120, yet the drag-end handler snaps to
minHeight with no close callback (the `height ≤ minHeight` branch wins), and
the subsequent settle fires no close. -/
theorem dragEnd_below_threshold_no_close :
    ((run ⟨200, false, true, 0, 300, false⟩
        [Event.setVisible true, Event.settle true, Event.dragStart,
         Event.dragMove 250, Event.dragEnd]).1.animatedHeight <
      (200 : ℚ) - 80) ∧
    (run ⟨200, false, true, 0, 300, false⟩
        [Event.setVisible true, Event.settle true, Event.dragStart,
         Event.dragMove 250, Event.dragEnd]).1.anim =
      some ⟨AnimKind.spring, 0, false⟩ ∧
    (run ⟨200, false, true, 0, 300, false⟩
        [Event.setVisible true, Event.settle true, Event.dragStart,
         Event.dragMove 250, Event.dragEnd, Event.settle true]).2 = 0 := by
  refine ⟨by norm_num [run, runFrom, applyEvent, initState, visibleEffect,
    onStart, onActive, onEnd, onEndAnim, clampHeight, handleBackdropPress],
    ?_, ?_⟩ <;>
    norm_num [run, runFrom, applyEvent, initState, visibleEffect, onStart,
      onActive, onEnd, onEndAnim, clampHeight, handleBackdropPress]

/-- C4 amended: for a drag with closing enabled that ends strictly between
minHeight and maxHeight, ending below height − 80 triggers the close sequence
(timing to 0 whose completion invokes the close callback), and ending at or
above height − 80 restores the configured open height. -/
theorem dragEnd_threshold (cfg : Config) (s : SheetState)
    (hd : cfg.disableClose = false)
    (hlo : cfg.minHeight < s.animatedHeight)
    (hhi : s.animatedHeight < cfg.maxHeight) :
    (s.animatedHeight < cfg.height - 80 →
      onEnd cfg s = { s with isDragging := false, anim := some ⟨AnimKind.timing, 0, true⟩ } ∧
      (applyEvent cfg (onEnd cfg s) (Event.settle true)).2 = true ∧
      (applyEvent cfg (onEnd cfg s) (Event.settle true)).1.animatedHeight = 0) ∧
    (cfg.height - 80 ≤ s.animatedHeight →
      onEnd cfg s = { s with isDragging := false, anim := some ⟨AnimKind.spring, cfg.height, false⟩ }) := by
  constructor
  · intro hth
    have he : onEnd cfg s =
        { s with isDragging := false, anim := some ⟨AnimKind.timing, 0, true⟩ } := by
      simp [onEnd, onEndAnim, hd, ge_iff_le, not_le.mpr hhi, not_le.mpr hlo, hth]
    refine ⟨he, ?_, ?_⟩ <;> rw [he] <;> simp [applyEvent]
  · intro hth
    simp [onEnd, onEndAnim, hd, ge_iff_le, not_le.mpr hhi, not_le.mpr hlo,
      not_lt.mpr hth]

/-- Witness for the amended C4: a drag ending at 50 with height 200 and
bounds [0, 300] triggers the close sequence and its settle invokes close at
height 0. -/
theorem dragEnd_threshold_witness :
    (onEnd ⟨200, false, true, 0, 300, false⟩ ⟨50, true, 200, none⟩ =
      { animatedHeight := 50, isDragging := false, startHeight := 200,
        anim := some ⟨AnimKind.timing, 0, true⟩ } ∧
      (applyEvent ⟨200, false, true, 0, 300, false⟩
        (onEnd ⟨200, false, true, 0, 300, false⟩ ⟨50, true, 200, none⟩)
        (Event.settle true)).2 = true ∧
      (applyEvent ⟨200, false, true, 0, 300, false⟩
        (onEnd ⟨200, false, true, 0, 300, false⟩ ⟨50, true, 200, none⟩)
        (Event.settle true)).1.animatedHeight = 0) :=
  (dragEnd_threshold ⟨200, false, true, 0, 300, false⟩ ⟨50, true, 200, none⟩
    rfl (by norm_num) (by norm_num)).1 (by norm_num)

/-- C5 counterexample: toggling visibility false→true→false with no gestures
or backdrop interaction ends at height 0 but invokes the close callback zero
times, not once — the visibility effect's timing command carries no
completion callback. -/
theorem visibility_toggle_no_close :
    (run ⟨200, false, true, 0, 300, false⟩
        [Event.setVisible true, Event.settle true, Event.setVisible false,
         Event.settle true]).1.animatedHeight = 0 ∧
    (run ⟨200, false, true, 0, 300, false⟩
        [Event.setVisible true, Event.settle true, Event.setVisible false,
         Event.settle true]).2 = 0 ∧
    ¬ (run ⟨200, false, true, 0, 300, false⟩
        [Event.setVisible true, Event.settle true, Event.setVisible false,
         Event.settle true]).2 = 1 := by
  refine ⟨rfl, rfl, by norm_num [run, runFrom, applyEvent, initState,
    visibleEffect]⟩

/-- C5 amended: when visibility becomes false the height is animated toward 0
with eased timing and no completion callback is attached, so toggling
visibility false→true→false with no interaction ends at height 0 and invokes
the close callback zero times. -/
theorem visibility_false_closes_silently (cfg : Config) (s : SheetState) :
    visibleEffect cfg s false = { s with anim := some ⟨AnimKind.timing, 0, false⟩ } ∧
    (run cfg [Event.setVisible true, Event.settle true, Event.setVisible false,
        Event.settle true]).1.animatedHeight = 0 ∧
    (run cfg [Event.setVisible true, Event.settle true, Event.setVisible false,
        Event.settle true]).2 = 0 :=
  ⟨rfl, rfl, rfl⟩

/-- Helper invariant for C6: every pending animation targets one of 0,
minHeight, maxHeight or the configured open height. -/
def targetOk (cfg : Config) (s : SheetState) : Prop :=
  ∀ a, s.anim = some a →
    a.target = 0 ∨ a.target = cfg.minHeight ∨ a.target = cfg.maxHeight ∨
      a.target = cfg.height

/-- Every event step preserves `targetOk`. -/
theorem applyEvent_targetOk (cfg : Config) (s : SheetState)
    (hs : targetOk cfg s) (e : Event) : targetOk cfg (applyEvent cfg s e).1 := by
  cases e with
  | setVisible b =>
      cases b <;> simp [applyEvent, visibleEffect, targetOk]
  | dragStart =>
      exact fun a ha => hs a ha
  | dragMove t =>
      by_cases hd : cfg.disableClose = true
      · simpa [applyEvent, onActive, hd] using hs
      · simp only [Bool.not_eq_true] at hd
        simp [applyEvent, onActive, hd, targetOk]
  | dragEnd =>
      intro a ha
      simp only [applyEvent, onEnd, Option.some.injEq] at ha
      subst ha
      unfold onEndAnim
      split_ifs <;> simp
  | backdropPress =>
      by_cases hd : cfg.disableClose = true
      · simpa [applyEvent, handleBackdropPress, hd] using hs
      · simp only [Bool.not_eq_true] at hd
        simp [applyEvent, handleBackdropPress, hd, targetOk]
  | settle finished =>
      cases ha : s.anim with
      | none => simpa [applyEvent, ha] using hs
      | some a => cases finished <;> simp [applyEvent, ha, targetOk]

/-- Helper for C6: `targetOk` holds in every state reachable by a run. -/
theorem run_targetOk (cfg : Config) (es : List Event) :
    targetOk cfg (run cfg es).1 := by
  suffices h : ∀ s n, targetOk cfg s → targetOk cfg (runFrom cfg s n es).1 by
    exact h initState 0 (fun a ha => by cases ha)
  induction es with
  | nil => intro s n hs; exact hs
  | cons e es ih =>
      intro s n hs
      exact ih _ _ (applyEvent_targetOk cfg s hs e)

/-- C6 amended: provided the configuration satisfies minHeight ≤ 0,
0 ≤ maxHeight and minHeight ≤ height ≤ maxHeight, every state reached by
completing a pending animation (a finished settle) after any event sequence
has its height within [minHeight, maxHeight]. -/
theorem settle_height_in_bounds (cfg : Config)
    (h0 : cfg.minHeight ≤ 0) (h1 : 0 ≤ cfg.maxHeight)
    (h2 : cfg.minHeight ≤ cfg.height) (h3 : cfg.height ≤ cfg.maxHeight)
    (es : List Event) (a : Anim) (ha : (run cfg es).1.anim = some a) :
    cfg.minHeight ≤
      (applyEvent cfg (run cfg es).1 (Event.settle true)).1.animatedHeight ∧
    (applyEvent cfg (run cfg es).1 (Event.settle true)).1.animatedHeight ≤
      cfg.maxHeight := by
  have htar := run_targetOk cfg es a ha
  have hmm : cfg.minHeight ≤ cfg.maxHeight := le_trans h0 h1
  have hh : (applyEvent cfg (run cfg es).1 (Event.settle true)).1.animatedHeight
      = a.target := by
    simp [applyEvent, ha]
  rw [hh]
  rcases htar with h | h | h | h <;> rw [h]
  · exact ⟨h0, h1⟩
  · exact ⟨le_refl _, hmm⟩
  · exact ⟨hmm, le_refl _⟩
  · exact ⟨h2, h3⟩

/-- C6 counterexample: with minHeight 50 ≤ maxHeight 300, making the sheet
invisible and letting the close animation finish settles the height at 0,
strictly below minHeight — the invariant fails for a caller-supplied
configuration with minHeight ≤ maxHeight. -/
theorem settle_below_minHeight :
    ((50 : ℚ) ≤ 300) ∧
    (run ⟨200, false, true, 50, 300, false⟩
        [Event.setVisible false, Event.settle true]).1.anim = none ∧
    (run ⟨200, false, true, 50, 300, false⟩
        [Event.setVisible false, Event.settle true]).1.animatedHeight < 50 := by
  refine ⟨by norm_num, rfl, by norm_num [run, runFrom, applyEvent, initState,
    visibleEffect]⟩

/-- Witness for the amended C6: with the default-style configuration
(height 200, bounds [0, 300]) the settle completing the opening spring leaves
the height within bounds. -/
theorem settle_height_in_bounds_witness :
    (0 : ℚ) ≤
      (applyEvent ⟨200, false, true, 0, 300, false⟩
        (run ⟨200, false, true, 0, 300, false⟩ [Event.setVisible true]).1
        (Event.settle true)).1.animatedHeight ∧
    (applyEvent ⟨200, false, true, 0, 300, false⟩
        (run ⟨200, false, true, 0, 300, false⟩ [Event.setVisible true]).1
        (Event.settle true)).1.animatedHeight ≤ 300 :=
  settle_height_in_bounds ⟨200, false, true, 0, 300, false⟩ (le_refl 0)
    (by norm_num) (by norm_num) (by norm_num) [Event.setVisible true]
    ⟨AnimKind.spring, 200, false⟩ rfl

/-- C7: a backdrop press in modal mode with closing enabled starts an eased
timing animation to 0 with the close callback attached, and when that
animation completes the height is 0 and the close callback fires. -/
theorem backdropPress_closes (cfg : Config) (s : SheetState)
    (hm : cfg.isModal = true) (hd : cfg.disableClose = false) :
    handleBackdropPress cfg s = { s with anim := some ⟨AnimKind.timing, 0, true⟩ } ∧
    (applyEvent cfg (handleBackdropPress cfg s) (Event.settle true)).1.animatedHeight = 0 ∧
    (applyEvent cfg (handleBackdropPress cfg s) (Event.settle true)).2 = true := by
  have he : handleBackdropPress cfg s =
      { s with anim := some ⟨AnimKind.timing, 0, true⟩ } := by
    simp [handleBackdropPress, hd]
  refine ⟨he, ?_, ?_⟩ <;> rw [he] <;> simp [applyEvent]

/-- Witness for C7: pressing the backdrop on the open default-style sheet
animates to 0 and fires close on completion. -/
theorem backdropPress_closes_witness :
    handleBackdropPress ⟨200, false, true, 0, 300, false⟩ ⟨200, false, 200, none⟩ =
      { animatedHeight := 200, isDragging := false, startHeight := 200,
        anim := some ⟨AnimKind.timing, 0, true⟩ } ∧
    (applyEvent ⟨200, false, true, 0, 300, false⟩
      (handleBackdropPress ⟨200, false, true, 0, 300, false⟩
        ⟨200, false, 200, none⟩) (Event.settle true)).1.animatedHeight = 0 ∧
    (applyEvent ⟨200, false, true, 0, 300, false⟩
      (handleBackdropPress ⟨200, false, true, 0, 300, false⟩
        ⟨200, false, 200, none⟩) (Event.settle true)).2 = true :=
  backdropPress_closes ⟨200, false, true, 0, 300, false⟩ ⟨200, false, 200, none⟩
    rfl rfl

/-- C8: whenever an event step changes the height value and a height-change
observer is configured, the derived-value watcher notifies it with the height
value after the mutation. -/
theorem heightChange_notifies (cfg : Config) (s : SheetState) (e : Event)
    (hobs : cfg.hasOnHeightChange = true)
    (hch : (applyEvent cfg s e).1.animatedHeight ≠ s.animatedHeight) :
    (stepWithNotify cfg s e).2.2 = some (applyEvent cfg s e).1.animatedHeight := by
  simp [stepWithNotify, hobs, hch]

/-- Witness for C8: with an observer configured, the settle completing the
opening spring notifies the observer with the new height 200. -/
theorem heightChange_notifies_witness :
    (stepWithNotify ⟨200, false, true, 0, 300, true⟩
        ⟨0, false, 0, some ⟨AnimKind.spring, 200, false⟩⟩
        (Event.settle true)).2.2 =
      some (applyEvent ⟨200, false, true, 0, 300, true⟩
        ⟨0, false, 0, some ⟨AnimKind.spring, 200, false⟩⟩
        (Event.settle true)).1.animatedHeight :=
  heightChange_notifies ⟨200, false, true, 0, 300, true⟩
    ⟨0, false, 0, some ⟨AnimKind.spring, 200, false⟩⟩ (Event.settle true) rfl
    (by norm_num [applyEvent])

/-- C9: with disableClose set, a drag move leaves the state (in particular
the height value) unchanged, while drag start always sets the drag flag and
drag end always clears it, for any configuration. -/
theorem disableClose_drag_frame (cfg : Config) (s : SheetState) (t : ℚ) :
    (cfg.disableClose = true → onActive cfg s t = s) ∧
    (onStart s).isDragging = true ∧
    (onEnd cfg s).isDragging = false := by
  refine ⟨fun hd => ?_, rfl, rfl⟩
  simp [onActive, hd]

/-- Witness for C9: under disableClose the move handler is the identity on a
concrete state, whose drag flag is still toggled by start and end. -/
theorem disableClose_drag_frame_witness :
    (onActive ⟨200, true, true, 0, 300, false⟩ ⟨200, true, 200, none⟩ 50 =
      ⟨200, true, 200, none⟩) ∧
    (onStart ⟨200, true, 200, none⟩).isDragging = true ∧
    (onEnd ⟨200, true, true, 0, 300, false⟩ ⟨200, true, 200, none⟩).isDragging =
      false :=
  ⟨(disableClose_drag_frame ⟨200, true, true, 0, 300, false⟩
      ⟨200, true, 200, none⟩ 50).1 rfl,
    (disableClose_drag_frame ⟨200, true, true, 0, 300, false⟩
      ⟨200, true, 200, none⟩ 50).2⟩

/-- C10: the close callback is invoked by a step only when a pending
animation carrying the callback settles with finished = true; any other
event — including direct writes and replacement animations that supersede an
in-flight command, and settles with finished = false — fires no close. -/
theorem close_only_on_finished (cfg : Config) (s : SheetState) (e : Event)
    (hfired : (applyEvent cfg s e).2 = true) :
    e = Event.settle true ∧ ∃ a, s.anim = some a ∧ a.fireClose = true := by
  cases e with
  | setVisible b => simp [applyEvent] at hfired
  | dragStart => simp [applyEvent, onStart] at hfired
  | dragMove t => simp [applyEvent] at hfired
  | dragEnd => simp [applyEvent] at hfired
  | backdropPress => simp [applyEvent] at hfired
  | settle finished =>
      cases ha : s.anim with
      | none => rw [applyEvent, ha] at hfired; cases hfired
      | some a =>
          cases finished with
          | false => rw [applyEvent, ha] at hfired; simp at hfired
          | true =>
              rw [applyEvent, ha] at hfired
              simp only [if_true] at hfired
              exact ⟨rfl, a, rfl, hfired⟩

/-- Witness for C10: a finished settle of the backdrop-press animation fires
close, and the theorem recovers the pending close-carrying animation. -/
theorem close_only_on_finished_witness :
    Event.settle true = Event.settle true ∧
    ∃ a, (⟨200, false, 200, some ⟨AnimKind.timing, 0, true⟩⟩ :
        SheetState).anim = some a ∧ a.fireClose = true :=
  close_only_on_finished ⟨200, false, true, 0, 300, false⟩
    ⟨200, false, 200, some ⟨AnimKind.timing, 0, true⟩⟩ (Event.settle true) rfl

end CustomBottomSheet
